import Mathlib

/-!
Verification of the MoodGenesis front-end (`src/static/script.js`).

The script is a browser UI: global mutable session state, DOM rendering, and
four backend endpoints. We embed it shallowly:

* the mutable globals and the claim-relevant DOM attributes become fields of
  `AppState`;
* each event handler becomes a pure function `AppState → Oracle → AppState × List String`,
  where the oracle supplies the backend responses (one constructor per
  outcome of `fetchAPI` / `JSON.parse`) and the returned list records the
  endpoints actually called, in order;
* JS string builtins (`trim`, `length` in UTF-16 units, `includes`,
  `toLowerCase`) are modelled explicitly; JS truthiness of an optional string
  (`undefined`/`null`/`""` are falsy) is `jsTruthyStr`.
-/

set_option maxRecDepth 8000

namespace MoodGenesis

/-- Characters removed by JS `String.prototype.trim` (WhiteSpace ∪ LineTerminator). -/
def jsIsWhitespace (c : Char) : Bool :=
  c == ' ' || c == '\t' || c == '\n' || c == '\r' || c == '\x0b' || c == '\x0c' ||
  c == '\u00A0' || c == '\u1680' ||
  ('\u2000' ≤ c && c ≤ '\u200A') ||
  c == '\u2028' || c == '\u2029' || c == '\u202F' || c == '\u205F' || c == '\u3000' ||
  c == '\uFEFF'

/-- JS `s.trim()`: strip leading and trailing whitespace. -/
def jsTrim (s : String) : String :=
  String.mk (((s.toList.dropWhile jsIsWhitespace).reverse.dropWhile jsIsWhitespace).reverse)

/-- JS `s.length`: the number of UTF-16 code units (astral code points count 2). -/
def jsLength (s : String) : Nat :=
  (s.toList.map (fun c => if c.toNat ≥ 0x10000 then 2 else 1)).sum

/-- Character-list prefix test (used to implement JS `includes`). -/
def charPrefixOf : List Char → List Char → Bool
  | [], _ => true
  | _ :: _, [] => false
  | a :: s, b :: t => a == b && charPrefixOf s t

/-- Scan for `sub` as a prefix of some suffix of the second list. -/
def charInfixOf (sub : List Char) : List Char → Bool
  | [] => sub.isEmpty
  | b :: t => charPrefixOf sub (b :: t) || charInfixOf sub t

/-- JS `s.includes(sub)`: substring containment. -/
def jsIncludes (s sub : String) : Bool :=
  charInfixOf sub.toList s.toList

/-- How JS renders a nullable string in a template literal: `null` prints as "null". -/
def jsStr : Option String → String
  | some s => s
  | none => "null"

/-- JS truthiness of a possibly-absent string: absent and `""` are falsy. -/
def jsTruthyStr : Option String → Bool
  | some s => !(s == "")
  | none => false

/-- JS `s.toLowerCase()` on the ASCII names the script compares against. -/
def jsToLower (s : String) : String := String.mk (s.toList.map Char.toLower)

/-- JS `Math.round(num / den)` for an integer numerator and a positive
integer denominator: round to nearest, halves toward positive infinity,
i.e. the floor of `num / den + 1/2`, computed as an integer floor division
(`Int` division in Lean rounds toward negative infinity for a positive
divisor). `jsRoundQuot_eq_floor` proves the floor characterisation. -/
def jsRoundQuot (num : ℤ) (den : ℕ) : ℤ := (2 * num + den) / (2 * den)

/-- One parsed element of the `/analyze` response array (an `AnalysisPoint`). -/
structure AnalysisPoint where
  keyEvent : String
  characterFocus : String
  TensionScore : ℤ
  TensionSummary : String
  PacingScore : ℤ
  PacingSummary : String
  AgencyScore : ℤ
  AgencySummary : String
  ResonanceScore : ℤ
  ResonanceSummary : String
deriving DecidableEq, Repr

/-- One part of a chat history entry: a single text field, as the script pushes it. -/
structure ChatPart where
  text : String
deriving DecidableEq, Repr

/-- One entry of `chatHistory`: a role plus a list of parts, exactly as pushed. -/
structure ChatMessage where
  role : String
  parts : List ChatPart
deriving DecidableEq, Repr

/-- A source citation returned by `/search_excerpt`: a title and a uri. -/
structure Source where
  title : String
  uri : String
deriving DecidableEq, Repr

/-- Parsed body of a `/search_excerpt` response: optional excerpt and sources. -/
structure SearchResult where
  excerpt : Option String
  sources : Option (List Source)
deriving DecidableEq, Repr

/-- One character button in the `characterSlots` container, with its
highlight state (the `bg-blue-600` class toggled by `setActiveCharacter`). -/
structure CharacterIcon where
  name : String
  highlighted : Bool
deriving DecidableEq, Repr

/-- The rendered view of one metric line of an analysis card
(label, score, summary, icon, and the colour class from `getMetricColor`). -/
structure MetricView where
  label : String
  score : ℤ
  summary : String
  icon : String
  color : String
deriving DecidableEq, Repr

/-- The rendered view of one analysis card produced by `updateUI`. -/
structure CardView where
  borderColor : String
  pointNumber : Nat
  chartLabel : String
  keyEvent : String
  characterFocus : String
  metrics : List MetricView
deriving DecidableEq, Repr

/-- Contents of the `analysisOutput` container: untouched, a list of rendered
cards, or the error box written by the `catch` block of `handleAnalysis`. -/
inductive AnalysisOutput where
  | initial
  | cards (cs : List CardView)
  | errorBox (msg : String)
deriving DecidableEq, Repr

/-- The session state: the mutable globals of the script plus the
claim-relevant DOM attributes (input values, status texts and their red
class, disabled flags, rendered containers, focus). -/
structure AppState where
  isAnalyzing : Bool
  isSearching : Bool
  isChatting : Bool
  chatHistory : List ChatMessage
  lastAnalysisData : Option (List AnalysisPoint)
  activeCharacter : Option String
  storyInput : String
  bookTitleInput : String
  chatInputValue : String
  statusMessage : String
  statusRed : Bool
  searchStatusMessage : String
  searchStatusRed : Bool
  chatStatusMessage : String
  chatStatusRed : Bool
  analyzeButtonDisabled : Bool
  findSummaryButtonDisabled : Bool
  chatInputDisabled : Bool
  sendChatButtonDisabled : Bool
  downloadButtonExists : Bool
  downloadButtonDisabled : Bool
  summaryOutputHidden : Bool
  summaryTextarea : String
  characterSlots : List CharacterIcon
  analysisOutput : AnalysisOutput
  chatOutput : String
  chartData : List ℤ
  summaryConflict : Option String
  summaryClimax : Option String
  summaryAvgTension : Option ℤ
  summaryMainCharacter : Option String
  chatInputFocused : Bool
deriving DecidableEq, Repr

/-- Outcome of a `fetchAPI` call as seen by the handler: either the awaited
parsed body, or a thrown error (network failure, non-ok status with the
server message, or a later `JSON.parse` failure caught by the same block). -/
inductive FetchOutcome (α : Type) where
  | err (msg : String)
  | ok (a : α)
deriving DecidableEq, Repr

/-- The value of `JSON.parse(result.analysis)` in `handleAnalysis`: either not
an array at all, or an array of analysis points. -/
inductive AnalyzeValue where
  | nonArray
  | array (items : List AnalysisPoint)
deriving DecidableEq, Repr

/-- Backend responses consumed by one run of `handleAnalysis`. -/
structure AnalyzeOracle where
  analyzeResp : FetchOutcome AnalyzeValue
  charResp : FetchOutcome (Option (List String))
deriving DecidableEq, Repr

/-- The chart x-axis labels configured at page load and read back by the
cards through the chart instance. -/
def chartLabels : List String :=
  ["Start", "Point 1", "Point 2", "Midpoint", "Point 4", "Point 5", "Climax/End"]

/-- `getMetricColor` from `updateUI`: `score > 80 ? red : score > 50 ? amber : green`. -/
def getMetricColor (score : ℤ) : String :=
  if score > 80 then "text-red-600" else if score > 50 then "text-amber-600" else "text-green-600"

/-- The card border colour: `TensionScore > 70 ? red : > 40 ? amber : green`. -/
def cardBorderColor (tension : ℤ) : String :=
  if tension > 70 then "border-red-500" else if tension > 40 then "border-amber-500"
  else "border-green-500"

/-- One metric line of a card, coloured by `getMetricColor`. -/
def renderMetric (label : String) (score : ℤ) (summary icon : String) : MetricView :=
  { label := label, score := score, summary := summary, icon := icon
    color := getMetricColor score }

/-- The card built for `analysisData[index]` inside `updateUI`. -/
def renderCard (labels : List String) (index : Nat) (item : AnalysisPoint) : CardView :=
  { borderColor := cardBorderColor item.TensionScore
    pointNumber := index + 1
    chartLabel := (labels[index]?).getD "undefined"
    keyEvent := item.keyEvent
    characterFocus := item.characterFocus
    metrics :=
      [renderMetric "Tension" item.TensionScore item.TensionSummary "⚡",
       renderMetric "Pacing" item.PacingScore item.PacingSummary "⏱️",
       renderMetric "Agency" item.AgencyScore item.AgencySummary "💡",
       renderMetric "Resonance" item.ResonanceScore item.ResonanceSummary "❤️"] }

/-- `analysisData.map((item, index) => ...)`: one card per point, in order. -/
def renderCards (labels : List String) : Nat → List AnalysisPoint → List CardView
  | _, [] => []
  | i, item :: rest => renderCard labels i item :: renderCards labels (i + 1) rest

/-- `getCharacterIcon`: substring lookup on the lower-cased name, first match wins. -/
def getCharacterIcon (name : String) : String :=
  let lowerName := jsToLower name
  if jsIncludes lowerName "monster" || jsIncludes lowerName "dracula" ||
     jsIncludes lowerName "hyde" || jsIncludes lowerName "villain" then "🦹"
  else if jsIncludes lowerName "detective" || jsIncludes lowerName "sherlock" then "🕵️"
  else if jsIncludes lowerName "narrator" || jsIncludes lowerName "author" ||
     jsIncludes lowerName "writer" then "✍️"
  else if jsIncludes lowerName "old" || jsIncludes lowerName "elder" ||
     jsIncludes lowerName "grand" then "👴"
  else if jsIncludes lowerName "girl" || jsIncludes lowerName "woman" ||
     jsIncludes lowerName "lady" || jsIncludes lowerName "jane" ||
     jsIncludes lowerName "mary" then "👩‍🦱"
  else if jsIncludes lowerName "boy" || jsIncludes lowerName "man" ||
     jsIncludes lowerName "john" || jsIncludes lowerName "mr." then "🧔"
  else "🧑"

/-- `textContent` of a character button: the emoji span then the name span. -/
def iconTextContent (name : String) : String :=
  getCharacterIcon name ++ name

/-- The HTML appended to `chatOutput` by `renderMessage(role, text)`; the
character name falls back to "Character AI" when no character is active. -/
def renderMessageHtml (role text : String) (active : Option String) : String :=
  let isUser := role == "user"
  let bgColor := if isUser then "bg-blue-50" else "bg-gray-100"
  let alignment := if isUser then "self-end" else "self-start"
  let characterName :=
    if isUser then "You" else if jsTruthyStr active then jsStr active else "Character AI"
  "<div class=\"flex flex-col " ++ alignment ++ " max-w-xs md:max-w-lg my-2\">" ++
  "<span class=\"text-xs font-semibold text-gray-500 mb-1\">" ++ characterName ++ "</span>" ++
  "<div class=\"p-3 rounded-xl " ++ bgColor ++ " shadow-sm\">" ++
  "<p class=\"text-sm text-gray-800\">" ++ text ++ "</p></div></div>"

/-- The sources line built by `findBookSummary` (anchor per source, joined by " | "). -/
def sourcesHtml (srcs : List Source) : String :=
  String.intercalate " | "
    (srcs.map (fun s =>
      "<a href=\"" ++ s.uri ++ "\" target=\"_blank\" class=\"text-blue-600 text-xs\">" ++
      s.title ++ "</a>"))

/-- `setActiveCharacter(name)`: records the active character, clears
`chatHistory`, replaces the chat output, re-highlights every icon whose
`textContent` contains the name (JS renders a `null` argument as "null"),
and focuses the chat input. -/
def setActiveCharacter (st : AppState) (name : Option String) : AppState :=
  let nameStr := jsStr name
  { st with
    activeCharacter := name
    chatHistory := []
    chatOutput :=
      "<p class=\"text-center text-sm text-gray-500 italic\">Now chatting as " ++ nameStr ++
      ". Ask them about the story context!</p>"
    characterSlots := st.characterSlots.map (fun ic =>
      { ic with highlighted := jsIncludes (iconTextContent ic.name) nameStr })
    chatInputFocused := true }

/-- `renderCharacterSlots(characters)`: rebuild the slot buttons (one per
name, in order, initially un-highlighted), then activate the first
character when the list is non-empty. -/
def renderCharacterSlots (st : AppState) (characters : List String) : AppState :=
  let st1 := { st with
    characterSlots := characters.map (fun n => { name := n, highlighted := false }) }
  match characters with
  | [] => st1
  | c :: _ => setActiveCharacter st1 (some c)

/-- `updateUI(analysisData, characters)`: chart data, cards, summary panel
(with `Math.round` of the mean tension — `reduce` with no seed, so an empty
array would throw, modelled as `none`), character slots, status, and chat
enablement, in source order. -/
def updateUI (st : AppState) (analysisData : List AnalysisPoint)
    (characters : List String) : AppState :=
  let scores := analysisData.map (·.TensionScore)
  let st1 := { st with chartData := scores }
  let st2 := { st1 with analysisOutput := AnalysisOutput.cards (renderCards chartLabels 0 analysisData) }
  let avg : Option ℤ :=
    match scores with
    | [] => none
    | h :: t => some (jsRoundQuot (t.foldl (· + ·) h) scores.length)
  let st3 := { st2 with
    summaryConflict := (analysisData[0]?).map (·.keyEvent)
    summaryClimax := (analysisData[6]?).map (·.keyEvent)
    summaryAvgTension := avg
    summaryMainCharacter := (analysisData[0]?).map (·.characterFocus)
    downloadButtonExists := true
    downloadButtonDisabled := false }
  let st4 :=
    if characters.length > 0 then
      let st' := renderCharacterSlots st3 characters
      { st' with chatStatusMessage := "Character list loaded. Click an icon to start chatting!" }
    else
      let st' := { st3 with chatStatusMessage :=
        "Ready to chat, but no specific characters were identified in the text." }
      setActiveCharacter st' none
  { st4 with
    statusMessage :=
      "Analysis complete! 4-Dimensional metrics mapped and chat enabled. Switch to the Chat tab to talk to your characters."
    chatHistory := []
    chatInputValue := ""
    chatInputDisabled := false
    sendChatButtonDisabled := false
    chatOutput :=
      "<p class=\"text-center text-sm text-gray-500 italic\">Chat mode is active. Select a character icon to begin!</p>" }

/-- The state after the pre-flight block of `handleAnalysis` (status reset,
busy-flag set, button disabled, retained data cleared, chat disabled; the
download button is only disabled when its page-load reference existed). -/
def analysisStartState (st : AppState) : AppState :=
  { st with
    statusRed := false
    isAnalyzing := true
    analyzeButtonDisabled := true
    statusMessage := "Analyzing story across 4 dimensions... Please wait."
    lastAnalysisData := none
    chatInputDisabled := true
    sendChatButtonDisabled := true
    downloadButtonDisabled := if st.downloadButtonExists then true else st.downloadButtonDisabled }

/-- The `catch` block of `handleAnalysis`: error box, failure status, chat
left disabled. -/
def analysisCatch (st : AppState) (msg : String) : AppState :=
  { st with
    analysisOutput := AnalysisOutput.errorBox ("Error: " ++ msg)
    statusMessage := "Analysis failed."
    statusRed := true
    chatInputDisabled := true
    sendChatButtonDisabled := true }

/-- The `finally` block of `handleAnalysis`: release the busy-flag, re-enable
the button. -/
def analysisFinally (st : AppState) : AppState :=
  { st with isAnalyzing := false, analyzeButtonDisabled := false }

/-- `Array.isArray(analysisData) && analysisData.length === 7` (negation of
the throw condition). -/
def structureOk : AnalyzeValue → Bool
  | AnalyzeValue.nonArray => false
  | AnalyzeValue.array items => items.length == 7

/-- What the length interpolation prints in the structure-error message:
`undefined` for a non-array value. -/
def analyzeLengthDisplay : AnalyzeValue → String
  | AnalyzeValue.nonArray => "undefined"
  | AnalyzeValue.array items => toString items.length

/-- The message of the structure error thrown by `handleAnalysis`. -/
def structureErrorMsg (v : AnalyzeValue) : String :=
  "Analysis structure error: Expected 7 items, got " ++ analyzeLengthDisplay v ++ "."

/-- `handleAnalysis`: busy-flag guard, 100-character validation on the
trimmed story, then the try/catch/finally pipeline over `/analyze` and
`/extract_characters`. Returns the new state and the endpoints called. -/
def handleAnalysis (st : AppState) (o : AnalyzeOracle) : AppState × List String :=
  if st.isAnalyzing then (st, [])
  else
    let storyText := jsTrim st.storyInput
    if jsLength storyText < 100 then
      ({ st with
          statusMessage :=
            "Error: Please enter a longer story (at least 100 characters) for a meaningful analysis."
          statusRed := true }, [])
    else
      let st1 := analysisStartState st
      match o.analyzeResp with
      | FetchOutcome.err msg => (analysisFinally (analysisCatch st1 msg), ["/analyze"])
      | FetchOutcome.ok v =>
        if structureOk v then
          let arr := match v with
            | AnalyzeValue.array items => items
            | AnalyzeValue.nonArray => []
          let st2 := { st1 with lastAnalysisData := some arr }
          match o.charResp with
          | FetchOutcome.err msg =>
            (analysisFinally (analysisCatch st2 msg), ["/analyze", "/extract_characters"])
          | FetchOutcome.ok chars =>
            (analysisFinally (updateUI st2 arr (chars.getD [])),
             ["/analyze", "/extract_characters"])
        else
          (analysisFinally (analysisCatch st1 (structureErrorMsg v)), ["/analyze"])

/-- `downloadAnalysisData()`: with nothing retained, alert and return (no
file); otherwise produce the dated file of the serialized retained data
(`JSON.stringify(lastAnalysisData, null, 2)`, modelled as the data itself
since no claim inspects the text) and the success alert. -/
def downloadAnalysisData (st : AppState) (today : String) :
    Option (String × List AnalysisPoint) × String :=
  match st.lastAnalysisData with
  | none => (none, "Please run a successful story analysis first.")
  | some data =>
    (some ("story-analysis-" ++ today ++ ".json", data), "Analysis data download started!")

/-- The state after the optimistic block of `handleChat`: user message pushed
to `chatHistory` and rendered, input cleared, busy-flag set, send button
disabled, thinking status. -/
def chatPendingState (st : AppState) : AppState :=
  let userText := jsTrim st.chatInputValue
  { st with
    chatHistory := st.chatHistory ++ [{ role := "user", parts := [{ text := userText }] }]
    chatOutput := st.chatOutput ++ renderMessageHtml "user" userText st.activeCharacter
    chatInputValue := ""
    isChatting := true
    sendChatButtonDisabled := true
    chatStatusMessage := jsStr st.activeCharacter ++ " is thinking..." }

/-- The `finally` block of `handleChat`: release the busy-flag, re-enable the
send button, focus the input. -/
def chatFinally (st : AppState) : AppState :=
  { st with isChatting := false, sendChatButtonDisabled := false, chatInputFocused := true }

/-- `handleChat`: guards (busy or disabled input → silent return; empty
trimmed text → silent return; empty story context or falsy active character
→ status message), then the optimistic push and the `/chat` call; a truthy
`response` is appended as the model turn, a missing or empty one only sets
an error status. -/
def handleChat (st : AppState) (o : FetchOutcome (Option String)) : AppState × List String :=
  if st.isChatting || st.chatInputDisabled then (st, [])
  else
    let userText := jsTrim st.chatInputValue
    let storyContext := jsTrim st.storyInput
    if userText == "" then (st, [])
    else if storyContext == "" then
      ({ st with chatStatusMessage :=
          "Error: Please run a successful analysis first to provide character context!" }, [])
    else if !(jsTruthyStr st.activeCharacter) then
      ({ st with chatStatusMessage :=
          "Error: Please select a character icon to start chatting!" }, [])
    else
      let st1 := chatPendingState st
      match o with
      | FetchOutcome.err msg =>
        (chatFinally { st1 with
            chatStatusMessage := "Chat failed: " ++ msg
            chatStatusRed := true }, ["/chat"])
      | FetchOutcome.ok resp =>
        if jsTruthyStr resp then
          (chatFinally { st1 with
              chatHistory := st1.chatHistory ++
                [{ role := "model", parts := [{ text := jsStr resp }] }]
              chatOutput := st1.chatOutput ++
                renderMessageHtml "model" (jsStr resp) st1.activeCharacter
              chatStatusMessage := "Response received." }, ["/chat"])
        else
          (chatFinally { st1 with
              chatStatusMessage := "Error: No valid response from the character AI." }, ["/chat"])

/-- The state after the pre-flight block of `findBookSummary` (red class
removed, busy-flag set, button disabled, summary panel hidden, searching
status). -/
def searchStartState (st : AppState) (query : String) : AppState :=
  { st with
    searchStatusRed := false
    isSearching := true
    findSummaryButtonDisabled := true
    summaryOutputHidden := true
    searchStatusMessage := "Searching for \"" ++ query ++ "\"..." }

/-- The `finally` block of `findBookSummary`. -/
def searchFinally (st : AppState) : AppState :=
  { st with isSearching := false, findSummaryButtonDisabled := false }

/-- `findBookSummary`: busy-flag guard, 5-character validation on the trimmed
query, then the `/search_excerpt` call; a truthy excerpt reveals the panel
(sources line appended when a non-empty sources array is present), a falsy
one reports not-found, a thrown error reports the failure in red. -/
def findBookSummary (st : AppState) (o : FetchOutcome SearchResult) : AppState × List String :=
  if st.isSearching then (st, [])
  else
    let query := jsTrim st.bookTitleInput
    if jsLength query < 5 then
      ({ st with
          searchStatusMessage :=
            "Please enter a title and a specific section (e.g., \x27Chapter 5 of Dracula\x27)."
          searchStatusRed := true }, [])
    else
      let st1 := searchStartState st query
      match o with
      | FetchOutcome.err msg =>
        (searchFinally { st1 with
            searchStatusMessage := "Search failed: " ++ msg
            searchStatusRed := true }, ["/search_excerpt"])
      | FetchOutcome.ok result =>
        if jsTruthyStr result.excerpt then
          let st2 := { st1 with
            summaryTextarea := jsTrim (jsStr result.excerpt)
            summaryOutputHidden := false
            searchStatusMessage :=
              "Excerpt found! Review the text below and copy it for analysis." }
          let st3 :=
            match result.sources with
            | some srcs =>
              if srcs.length > 0 then
                { st2 with searchStatusMessage := "Excerpt found! Sources: " ++ sourcesHtml srcs }
              else st2
            | none => st2
          (searchFinally st3, ["/search_excerpt"])
        else
          (searchFinally { st1 with
              searchStatusMessage :=
                "Could not find that specific excerpt. Try a different query." },
           ["/search_excerpt"])

/-- The session state at page load: flags down, containers empty, chart at
seven zeros; the chat input starts disabled (it is only enabled by a
successful analysis). -/
def initialState : AppState :=
  { isAnalyzing := false
    isSearching := false
    isChatting := false
    chatHistory := []
    lastAnalysisData := none
    activeCharacter := none
    storyInput := ""
    bookTitleInput := ""
    chatInputValue := ""
    statusMessage := ""
    statusRed := false
    searchStatusMessage := ""
    searchStatusRed := false
    chatStatusMessage := ""
    chatStatusRed := false
    analyzeButtonDisabled := false
    findSummaryButtonDisabled := false
    chatInputDisabled := true
    sendChatButtonDisabled := true
    downloadButtonExists := false
    downloadButtonDisabled := false
    summaryOutputHidden := true
    summaryTextarea := ""
    characterSlots := []
    analysisOutput := AnalysisOutput.initial
    chatOutput := ""
    chartData := [0, 0, 0, 0, 0, 0, 0]
    summaryConflict := none
    summaryClimax := none
    summaryAvgTension := none
    summaryMainCharacter := none
    chatInputFocused := false }

/-! Concrete fixtures used by the witnesses and counterexamples. -/

/-- A story input of 150 letter-a characters (the spec scenario input). -/
def longStory : String := String.mk (List.replicate 150 'a')

/-- A concrete analysis point with the given Tension score. -/
def demoPoint (t : ℤ) : AnalysisPoint :=
  { keyEvent := "event", characterFocus := "Mina", TensionScore := t, TensionSummary := "ts"
    PacingScore := 20, PacingSummary := "ps", AgencyScore := 30, AgencySummary := "gs"
    ResonanceScore := 40, ResonanceSummary := "rs" }

/-- The spec scenario payload: 7 points with Tension scores 10 to 70. -/
def scenarioData : List AnalysisPoint :=
  [demoPoint 10, demoPoint 20, demoPoint 30, demoPoint 40, demoPoint 50,
   demoPoint 60, demoPoint 70]

/-- An analysis point whose four metric scores are all 75. -/
def point75 : AnalysisPoint :=
  { keyEvent := "event", characterFocus := "Mina", TensionScore := 75, TensionSummary := "ts"
    PacingScore := 75, PacingSummary := "ps", AgencyScore := 75, AgencySummary := "gs"
    ResonanceScore := 75, ResonanceSummary := "rs" }

/-- An oracle whose calls all fail (also used where no call may happen). -/
def failingOracle : AnalyzeOracle :=
  { analyzeResp := FetchOutcome.err "boom", charResp := FetchOutcome.err "boom" }

/-- An oracle for a fully successful analysis run. -/
def successOracle : AnalyzeOracle :=
  { analyzeResp := FetchOutcome.ok (AnalyzeValue.array scenarioData)
    charResp := FetchOutcome.ok (some ["Mina", "Count Dracula"]) }

/-- The validation message for a too-short story. -/
def shortStoryMsg : String :=
  "Error: Please enter a longer story (at least 100 characters) for a meaningful analysis."

/-- A state with a short story and an analysis already in flight. -/
def busyShortState : AppState :=
  { initialState with isAnalyzing := true, storyInput := "Too short." }

/-- A state holding a previously retained analysis and a valid story. -/
def retainedState : AppState :=
  { initialState with storyInput := longStory, lastAnalysisData := some scenarioData }

/-- A chat invocation state that is valid except for the busy-flag. -/
def busyChatState : AppState :=
  { initialState with
      isChatting := true
      chatInputDisabled := false
      chatInputValue := "Hello"
      storyInput := longStory
      activeCharacter := some "Mina" }

/-- A chat invocation state that passes every precondition. -/
def readyChatState : AppState :=
  { initialState with
      chatInputDisabled := false
      sendChatButtonDisabled := false
      chatInputValue := "Hello"
      storyInput := longStory
      activeCharacter := some "Mina" }

/-- A state whose selector holds two characters. -/
def twoSlotState : AppState :=
  { initialState with
      characterSlots :=
        [{ name := "Mina", highlighted := false },
         { name := "Count Dracula", highlighted := false }] }

/-! General lemmas about the embedded operations. -/

theorem charPrefixOf_refl (l : List Char) : charPrefixOf l l = true := by
  induction l with
  | nil => rfl
  | cons a t ih => simp [charPrefixOf, ih]

theorem charInfixOf_append_self (pre sub : List Char) :
    charInfixOf sub (pre ++ sub) = true := by
  induction pre with
  | nil =>
    cases sub with
    | nil => rfl
    | cons b t => simp [charInfixOf, charPrefixOf_refl]
  | cons a t ih => simp [charInfixOf, ih]

theorem jsIncludes_append_self (p n : String) : jsIncludes (p ++ n) n = true := by
  have h : (p ++ n).toList = p.toList ++ n.toList := rfl
  simpa [jsIncludes, h] using charInfixOf_append_self p.toList n.toList

theorem foldl_add_eq_sum (h : ℤ) (t : List ℤ) : t.foldl (· + ·) h = h + t.sum := by
  induction t generalizing h with
  | nil => simp
  | cons x xs ih => simp [List.foldl_cons, ih, List.sum_cons]; ring

theorem jsRoundQuot_eq_floor (num : ℤ) (den : ℕ) (hden : 0 < den) :
    jsRoundQuot num den = ⌊(num : ℚ) / (den : ℚ) + 1 / 2⌋ := by
  have hd : ((den : ℚ)) ≠ 0 := Nat.cast_ne_zero.mpr hden.ne'
  have e : (num : ℚ) / (den : ℚ) + 1 / 2 = ((2 * num + den : ℤ) : ℚ) / ((2 * den : ℕ) : ℚ) := by
    push_cast
    field_simp
    ring
  rw [jsRoundQuot, e, Rat.floor_intCast_div_natCast]
  push_cast
  rfl

theorem slots_names (chars : List String) (g : CharacterIcon → Bool) :
    (((chars.map fun n => ({ name := n, highlighted := false } : CharacterIcon)).map
        fun ic => { ic with highlighted := g ic }).map CharacterIcon.name) = chars := by
  induction chars with
  | nil => rfl
  | cons c t ih => simp only [List.map_cons, ih]

theorem map_comp_name_eq_self (act : Option String) (l : List String) :
    l.map (CharacterIcon.name ∘
      (fun ic => { name := ic.name
                   highlighted := jsIncludes (iconTextContent ic.name) (jsStr act) }) ∘
      (fun n => ({ name := n, highlighted := false } : CharacterIcon))) = l := by
  induction l with
  | nil => rfl
  | cons a t ih =>
    simp only [List.map_cons, ih]
    rfl

/-! Projection lemmas: fields of the state `updateUI` and the handlers do
not touch. -/

theorem updateUI_analysisOutput (st : AppState) (data : List AnalysisPoint)
    (chars : List String) :
    (updateUI st data chars).analysisOutput =
      AnalysisOutput.cards (renderCards chartLabels 0 data) := by
  unfold updateUI renderCharacterSlots setActiveCharacter
  repeat' split
  all_goals rfl

theorem updateUI_summaryAvgTension (st : AppState) (data : List AnalysisPoint)
    (chars : List String) :
    (updateUI st data chars).summaryAvgTension =
      match data.map (·.TensionScore) with
      | [] => none
      | h :: t => some (jsRoundQuot (t.foldl (· + ·) h) (data.map (·.TensionScore)).length) := by
  unfold updateUI renderCharacterSlots setActiveCharacter
  repeat' split
  all_goals simp_all

theorem updateUI_lastAnalysisData (st : AppState) (data : List AnalysisPoint)
    (chars : List String) :
    (updateUI st data chars).lastAnalysisData = st.lastAnalysisData := by
  unfold updateUI renderCharacterSlots setActiveCharacter
  repeat' split
  all_goals rfl

theorem updateUI_isAnalyzing (st : AppState) (data : List AnalysisPoint)
    (chars : List String) :
    (updateUI st data chars).isAnalyzing = st.isAnalyzing := by
  unfold updateUI renderCharacterSlots setActiveCharacter
  repeat' split
  all_goals rfl

theorem updateUI_activeCharacter_cons (st : AppState) (data : List AnalysisPoint)
    (c : String) (rest : List String) :
    (updateUI st data (c :: rest)).activeCharacter = some c := by
  unfold updateUI renderCharacterSlots setActiveCharacter
  repeat' split
  all_goals simp_all

theorem updateUI_characterSlots_names_cons (st : AppState) (data : List AnalysisPoint)
    (c : String) (rest : List String) :
    (updateUI st data (c :: rest)).characterSlots.map CharacterIcon.name = c :: rest := by
  unfold updateUI renderCharacterSlots setActiveCharacter
  repeat' split
  all_goals simp_all [map_comp_name_eq_self]

theorem handleChat_lastAnalysisData (st : AppState) (o : FetchOutcome (Option String)) :
    (handleChat st o).1.lastAnalysisData = st.lastAnalysisData := by
  rcases o with msg | resp
  all_goals simp [handleChat, chatPendingState, chatFinally]
  all_goals split_ifs <;> simp

theorem findBookSummary_lastAnalysisData (st : AppState) (o : FetchOutcome SearchResult) :
    (findBookSummary st o).1.lastAnalysisData = st.lastAnalysisData := by
  rcases o with msg | result
  all_goals simp [findBookSummary, searchStartState, searchFinally]
  all_goals (split_ifs <;> try simp)
  rcases result.sources with _ | srcs
  all_goals simp
  all_goals split_ifs <;> simp

/-! Claim C1 -/

/-- C1 counterexample: a metric score of 75 is greater than 70, yet every
rendered metric of the card is amber, not red — the metric banding does not
use the 70/40 thresholds the claim states. -/
theorem C1_counterexample :
    (renderCards chartLabels 0 [point75]).map (fun card => card.metrics.map (·.color)) =
      [["text-amber-600", "text-amber-600", "text-amber-600", "text-amber-600"]] ∧
    (75 : ℤ) > 70 ∧ "text-amber-600" ≠ "text-red-600" := by decide

/-- C1 (amended): every metric line of every card rendered into the analysis
output is colour-banded with score above 80 red, score above 50 amber,
otherwise green; the 70/40 thresholds band the card border on the Tension
score instead. -/
theorem C1_metric_color_banding :
    (∀ st data chars, (updateUI st data chars).analysisOutput =
      AnalysisOutput.cards (renderCards chartLabels 0 data)) ∧
    (∀ labels i data, ∀ card ∈ renderCards labels i data, ∀ m ∈ card.metrics,
      m.color = if m.score > 80 then "text-red-600"
        else if m.score > 50 then "text-amber-600" else "text-green-600") ∧
    (∀ labels i item, (renderCard labels i item).borderColor =
      if item.TensionScore > 70 then "border-red-500"
      else if item.TensionScore > 40 then "border-amber-500" else "border-green-500") := by
  refine ⟨updateUI_analysisOutput, ?_, ?_⟩
  · intro labels i data
    induction data generalizing i with
    | nil => intro card hcard; simp [renderCards] at hcard
    | cons a t ih =>
      intro card hcard m hm
      rw [renderCards] at hcard
      rcases List.mem_cons.mp hcard with h | h
      · subst h
        simp only [renderCard, List.mem_cons, List.not_mem_nil, or_false] at hm
        rcases hm with rfl | rfl | rfl | rfl
        all_goals simp [renderMetric, getMetricColor]
      · exact ih (i + 1) card h m hm
  · intro labels i item
    simp [renderCard, cardBorderColor]

theorem C1_witness :
    ((updateUI initialState scenarioData []).analysisOutput =
      AnalysisOutput.cards (renderCards chartLabels 0 scenarioData)) ∧
    ((renderMetric "Tension" 10 "ts" "⚡").color =
      if (10 : ℤ) > 80 then "text-red-600"
      else if (10 : ℤ) > 50 then "text-amber-600" else "text-green-600") ∧
    ((renderCard chartLabels 0 point75).borderColor =
      if (75 : ℤ) > 70 then "border-red-500"
      else if (75 : ℤ) > 40 then "border-amber-500" else "border-green-500") := by
  refine ⟨C1_metric_color_banding.1 initialState scenarioData [], ?_, ?_⟩
  · have h := C1_metric_color_banding.2.1 chartLabels 0 [demoPoint 10]
      (renderCard chartLabels 0 (demoPoint 10)) (by decide)
      (renderMetric "Tension" 10 "ts" "⚡") (by decide)
    simpa using h
  · have h := C1_metric_color_banding.2.2 chartLabels 0 point75
    simpa using h

/-! Claim C2 -/

/-- C2 counterexample: with the busy-flag set and a story shorter than 100
characters, the handler makes no network call but also reports nothing: the
state, status message included, is fully unchanged — against the claim that
a validation message is always reported for a short story. -/
theorem C2_counterexample :
    jsLength (jsTrim busyShortState.storyInput) < 100 ∧
    handleAnalysis busyShortState failingOracle = (busyShortState, []) ∧
    busyShortState.statusMessage = "" := by decide

/-- C2 (amended): a story whose trimmed text is shorter than 100 characters
never triggers a network call; when no analysis is in flight the handler
reports the validation message (with the red class) and changes nothing
else, while with the busy-flag set it returns silently, unchanged. -/
theorem C2_short_story_validation (st : AppState) (o : AnalyzeOracle)
    (h : jsLength (jsTrim st.storyInput) < 100) :
    (handleAnalysis st o).2 = [] ∧
    (st.isAnalyzing = false →
      (handleAnalysis st o).1 =
        { st with statusMessage := shortStoryMsg, statusRed := true }) ∧
    (st.isAnalyzing = true → (handleAnalysis st o).1 = st) := by
  cases hb : st.isAnalyzing <;>
    simp [handleAnalysis, hb, h, shortStoryMsg]

theorem C2_witness :
    jsLength (jsTrim "Once upon a time.") < 100 ∧
    ((handleAnalysis { initialState with storyInput := "Once upon a time." } failingOracle).2 = [] ∧
     (({ initialState with storyInput := "Once upon a time." } : AppState).isAnalyzing = false →
       (handleAnalysis { initialState with storyInput := "Once upon a time." } failingOracle).1 =
         { { initialState with storyInput := "Once upon a time." } with
             statusMessage := shortStoryMsg, statusRed := true }) ∧
     (({ initialState with storyInput := "Once upon a time." } : AppState).isAnalyzing = true →
       (handleAnalysis { initialState with storyInput := "Once upon a time." } failingOracle).1 =
         { initialState with storyInput := "Once upon a time." })) :=
  ⟨by decide,
   C2_short_story_validation { initialState with storyInput := "Once upon a time." }
     failingOracle (by decide)⟩

/-! Claim C3 -/

/-- C3: whenever the parsed analysis payload is not an array of exactly 7
items, the pipeline stores the structure-error box, reports failure, leaves
the chat input and send button disabled, and never calls the
character-extraction endpoint. -/
theorem C3_structure_error (st : AppState) (o : AnalyzeOracle) (v : AnalyzeValue)
    (hb : st.isAnalyzing = false)
    (hlen : 100 ≤ jsLength (jsTrim st.storyInput))
    (hv : o.analyzeResp = FetchOutcome.ok v)
    (hbad : structureOk v = false) :
    (handleAnalysis st o).1.chatInputDisabled = true ∧
    (handleAnalysis st o).1.sendChatButtonDisabled = true ∧
    (handleAnalysis st o).1.analysisOutput =
      AnalysisOutput.errorBox ("Error: " ++ structureErrorMsg v) ∧
    (handleAnalysis st o).1.statusMessage = "Analysis failed." ∧
    (handleAnalysis st o).2 = ["/analyze"] := by
  have hlt : ¬ jsLength (jsTrim st.storyInput) < 100 := by omega
  simp [handleAnalysis, hb, hlt, hv, hbad, analysisFinally, analysisCatch, analysisStartState]

theorem C3_witness :
    (100 ≤ jsLength (jsTrim longStory) ∧ structureOk (AnalyzeValue.array []) = false) ∧
    ((handleAnalysis { initialState with storyInput := longStory }
        { analyzeResp := FetchOutcome.ok (AnalyzeValue.array []), charResp := FetchOutcome.err "x" }).1.chatInputDisabled = true ∧
     (handleAnalysis { initialState with storyInput := longStory }
        { analyzeResp := FetchOutcome.ok (AnalyzeValue.array []), charResp := FetchOutcome.err "x" }).1.sendChatButtonDisabled = true ∧
     (handleAnalysis { initialState with storyInput := longStory }
        { analyzeResp := FetchOutcome.ok (AnalyzeValue.array []), charResp := FetchOutcome.err "x" }).1.analysisOutput =
        AnalysisOutput.errorBox ("Error: " ++ structureErrorMsg (AnalyzeValue.array [])) ∧
     (handleAnalysis { initialState with storyInput := longStory }
        { analyzeResp := FetchOutcome.ok (AnalyzeValue.array []), charResp := FetchOutcome.err "x" }).1.statusMessage = "Analysis failed." ∧
     (handleAnalysis { initialState with storyInput := longStory }
        { analyzeResp := FetchOutcome.ok (AnalyzeValue.array []), charResp := FetchOutcome.err "x" }).2 = ["/analyze"]) :=
  ⟨⟨by decide, by decide⟩,
   C3_structure_error { initialState with storyInput := longStory }
     { analyzeResp := FetchOutcome.ok (AnalyzeValue.array []), charResp := FetchOutcome.err "x" }
     (AnalyzeValue.array []) (by decide) (by decide) rfl rfl⟩

/-! Claim C4 -/

/-- C4 counterexample: a state retains a successful result, then a new
analysis attempt passes validation but its fetch fails — no newer successful
analysis exists, yet the retained result is gone, cleared to `none` by the
pre-flight block of the failed attempt. -/
theorem C4_counterexample :
    retainedState.lastAnalysisData = some scenarioData ∧
    (handleAnalysis retainedState failingOracle).1.lastAnalysisData = none ∧
    (handleAnalysis retainedState failingOracle).1.statusMessage = "Analysis failed." := by
  decide

/-- C4 (amended): a successful run retains its parsed array for export, and
chat, character switching and excerpt search preserve the retained value;
but a new analysis attempt that passes input validation clears it first —
a run failing at fetch, parse or structure leaves nothing retained, while a
run failing only at character extraction retains the freshly parsed array;
exporting with nothing retained alerts and produces no file, exporting with
a retained value produces the dated file of that value. -/
theorem C4_retention (st : AppState) (o : AnalyzeOracle) (today : String)
    (hb : st.isAnalyzing = false)
    (hlen : 100 ≤ jsLength (jsTrim st.storyInput)) :
    (∀ arr chars, o.analyzeResp = FetchOutcome.ok (AnalyzeValue.array arr) → arr.length = 7 →
      o.charResp = FetchOutcome.ok chars →
      (handleAnalysis st o).1.lastAnalysisData = some arr) ∧
    (∀ msg, o.analyzeResp = FetchOutcome.err msg →
      (handleAnalysis st o).1.lastAnalysisData = none) ∧
    (∀ v, o.analyzeResp = FetchOutcome.ok v → structureOk v = false →
      (handleAnalysis st o).1.lastAnalysisData = none) ∧
    (∀ arr msg, o.analyzeResp = FetchOutcome.ok (AnalyzeValue.array arr) → arr.length = 7 →
      o.charResp = FetchOutcome.err msg →
      (handleAnalysis st o).1.lastAnalysisData = some arr) ∧
    (∀ name, (setActiveCharacter st name).lastAnalysisData = st.lastAnalysisData) ∧
    (∀ co, (handleChat st co).1.lastAnalysisData = st.lastAnalysisData) ∧
    (∀ so, (findBookSummary st so).1.lastAnalysisData = st.lastAnalysisData) ∧
    (st.lastAnalysisData = none →
      downloadAnalysisData st today =
        (none, "Please run a successful story analysis first.")) ∧
    (∀ d, st.lastAnalysisData = some d →
      downloadAnalysisData st today =
        (some ("story-analysis-" ++ today ++ ".json", d),
         "Analysis data download started!")) := by
  have hlt : ¬ jsLength (jsTrim st.storyInput) < 100 := by omega
  refine ⟨?_, ?_, ?_, ?_, fun name => rfl, handleChat_lastAnalysisData st,
    findBookSummary_lastAnalysisData st, ?_, ?_⟩
  · intro arr chars hv h7 hc
    have h7b : structureOk (AnalyzeValue.array arr) = true := by
      simp [structureOk, h7]
    simp [handleAnalysis, hb, hlt, hv, hc, h7b, analysisFinally, analysisStartState,
      updateUI_lastAnalysisData]
  · intro msg hv
    simp [handleAnalysis, hb, hlt, hv, analysisFinally, analysisCatch, analysisStartState]
  · intro v hv hbad
    simp [handleAnalysis, hb, hlt, hv, hbad, analysisFinally, analysisCatch, analysisStartState]
  · intro arr msg hv h7 hc
    have h7b : structureOk (AnalyzeValue.array arr) = true := by
      simp [structureOk, h7]
    simp [handleAnalysis, hb, hlt, hv, hc, h7b, analysisFinally, analysisCatch, analysisStartState]
  · intro hnone
    simp [downloadAnalysisData, hnone]
  · intro d hd
    simp [downloadAnalysisData, hd]

theorem C4_witness :
    ((retainedState.isAnalyzing = false ∧ 100 ≤ jsLength (jsTrim retainedState.storyInput)) ∧
     scenarioData.length = 7) ∧
    (handleAnalysis retainedState successOracle).1.lastAnalysisData = some scenarioData ∧
    (handleAnalysis retainedState failingOracle).1.lastAnalysisData = none ∧
    downloadAnalysisData { initialState with storyInput := longStory } "2026-02-03" =
      (none, "Please run a successful story analysis first.") ∧
    downloadAnalysisData retainedState "2026-02-03" =
      (some ("story-analysis-" ++ "2026-02-03" ++ ".json", scenarioData),
       "Analysis data download started!") :=
  ⟨⟨⟨rfl, by decide⟩, by decide⟩,
   (C4_retention retainedState successOracle "2026-02-03" rfl (by decide)).1
     scenarioData (some ["Mina", "Count Dracula"]) rfl (by decide) rfl,
   (C4_retention retainedState failingOracle "2026-02-03" rfl (by decide)).2.1 "boom" rfl,
   (C4_retention { initialState with storyInput := longStory } failingOracle "2026-02-03" rfl
     (by decide)).2.2.2.2.2.2.2.1 rfl,
   (C4_retention retainedState failingOracle "2026-02-03" rfl
     (by decide)).2.2.2.2.2.2.2.2 scenarioData rfl⟩

/-! Claim C5 -/

/-- C5: the reported average tension is the floor of the mean plus one half
(JS Math.round) of the 7 Tension scores, and on the spec scenario of scores
10, 20, 30, 40, 50, 60, 70 it is 40. -/
theorem C5_average_tension :
    (∀ st chars (data : List AnalysisPoint), data.length = 7 →
      (updateUI st data chars).summaryAvgTension =
        some ⌊(((data.map (·.TensionScore)).sum : ℤ) : ℚ) / 7 + 1 / 2⌋) ∧
    (updateUI initialState scenarioData []).summaryAvgTension = some 40 := by
  constructor
  · intro st chars data h7
    rw [updateUI_summaryAvgTension]
    have hlen : (data.map (·.TensionScore)).length = 7 := by simp [h7]
    cases hs : data.map (·.TensionScore) with
    | nil => rw [hs] at hlen; simp at hlen
    | cons a t =>
      rw [hs] at hlen
      simp only
      rw [foldl_add_eq_sum, ← List.sum_cons,
        jsRoundQuot_eq_floor _ _ (by omega : 0 < (a :: t).length), hlen]
      norm_num
  · decide

theorem C5_witness :
    scenarioData.length = 7 ∧
    (updateUI initialState scenarioData []).summaryAvgTension =
      some ⌊(((scenarioData.map (·.TensionScore)).sum : ℤ) : ℚ) / 7 + 1 / 2⌋ :=
  ⟨by decide, C5_average_tension.1 initialState [] scenarioData (by decide)⟩

/-! Claim C6 -/

/-- C6 counterexample: with the chat busy-flag set, `handleChat` makes no
network call but also produces no status message — the state is returned
fully unchanged, against the claim that every violation yields a message. -/
theorem C6_counterexample :
    busyChatState.isChatting = true ∧
    handleChat busyChatState (FetchOutcome.ok (some "Hi")) = (busyChatState, []) ∧
    busyChatState.chatStatusMessage = "" := by decide

/-- C6 (amended): none of the four precondition violations of `handleChat`
triggers a network call; the busy-or-disabled guard and the empty-message
guard return silently with the state unchanged, while a missing story
context or a missing active character set an error status message. -/
theorem C6_chat_preconditions (st : AppState) (o : FetchOutcome (Option String)) :
    ((st.isChatting = true ∨ st.chatInputDisabled = true) → handleChat st o = (st, [])) ∧
    (st.isChatting = false → st.chatInputDisabled = false →
      jsTrim st.chatInputValue = "" → handleChat st o = (st, [])) ∧
    (st.isChatting = false → st.chatInputDisabled = false →
      jsTrim st.chatInputValue ≠ "" → jsTrim st.storyInput = "" →
      handleChat st o =
        ({ st with chatStatusMessage :=
            "Error: Please run a successful analysis first to provide character context!" }, [])) ∧
    (st.isChatting = false → st.chatInputDisabled = false →
      jsTrim st.chatInputValue ≠ "" → jsTrim st.storyInput ≠ "" →
      jsTruthyStr st.activeCharacter = false →
      handleChat st o =
        ({ st with chatStatusMessage :=
            "Error: Please select a character icon to start chatting!" }, [])) := by
  refine ⟨?_, ?_, ?_, ?_⟩
  · rintro (h | h) <;> simp [handleChat, h]
  · intro h1 h2 h3
    simp [handleChat, h1, h2, h3]
  · intro h1 h2 h3 h4
    simp [handleChat, h1, h2, h3, h4]
  · intro h1 h2 h3 h4 h5
    simp [handleChat, h1, h2, h3, h4, h5]

theorem C6_witness :
    (busyChatState.isChatting = true ∨ busyChatState.chatInputDisabled = true) ∧
    handleChat busyChatState (FetchOutcome.err "x") = (busyChatState, []) :=
  ⟨Or.inl rfl, (C6_chat_preconditions busyChatState (FetchOutcome.err "x")).1 (Or.inl rfl)⟩

/-! Claim C7 -/

/-- C7: selecting a character clears the transcript, records the character,
focuses the chat input, and highlights every selector entry bearing the
chosen name (the entry text — icon emoji followed by the name — always
contains the name). -/
theorem C7_select_character (st : AppState) (name : String) :
    (setActiveCharacter st (some name)).chatHistory = [] ∧
    (setActiveCharacter st (some name)).activeCharacter = some name ∧
    (setActiveCharacter st (some name)).chatInputFocused = true ∧
    ∀ ic ∈ (setActiveCharacter st (some name)).characterSlots,
      ic.name = name → ic.highlighted = true := by
  refine ⟨rfl, rfl, rfl, ?_⟩
  intro ic hic hname
  simp only [setActiveCharacter, List.mem_map] at hic
  obtain ⟨ic0, hmem, rfl⟩ := hic
  simp only [jsStr]
  have h : ic0.name = name := hname
  rw [h, iconTextContent, jsIncludes_append_self]

theorem C7_witness :
    ({ name := "Mina", highlighted := true } : CharacterIcon) ∈
      (setActiveCharacter twoSlotState (some "Mina")).characterSlots ∧
    (setActiveCharacter twoSlotState (some "Mina")).chatHistory = [] ∧
    ({ name := "Mina", highlighted := true } : CharacterIcon).highlighted = true :=
  ⟨by decide, (C7_select_character twoSlotState "Mina").1,
   (C7_select_character twoSlotState "Mina").2.2.2
     { name := "Mina", highlighted := true } (by decide) rfl⟩

/-! Claim C8 -/

/-- C8: rebuilding the character selector from a non-empty extracted list
produces exactly one entry per character, in order, and activates the first
one; the same holds through the rest of `updateUI`, and on the two-element
list A, B the selector has 2 entries with active character A. -/
theorem C8_character_selector :
    (∀ st c rest,
      (renderCharacterSlots st (c :: rest)).characterSlots.map CharacterIcon.name = c :: rest ∧
      (renderCharacterSlots st (c :: rest)).activeCharacter = some c) ∧
    (∀ st data c rest,
      (updateUI st data (c :: rest)).characterSlots.map CharacterIcon.name = c :: rest ∧
      (updateUI st data (c :: rest)).activeCharacter = some c) ∧
    ((renderCharacterSlots initialState ["A", "B"]).characterSlots.length = 2 ∧
     (renderCharacterSlots initialState ["A", "B"]).activeCharacter = some "A") := by
  refine ⟨?_, ?_, by decide⟩
  · intro st c rest
    constructor
    · simp only [renderCharacterSlots, setActiveCharacter]
      exact slots_names (c :: rest) _
    · rfl
  · intro st data c rest
    exact ⟨updateUI_characterSlots_names_cons st data c rest,
      updateUI_activeCharacter_cons st data c rest⟩

/-! Claim C9 -/

/-- C9: each of the three guarded handlers sets its busy-flag for the
pending phase of an invocation that passes its precondition checks, and the
finally block clears it on every completion path, success or failure. -/
theorem C9_busy_flags (st : AppState) (ao : AnalyzeOracle) (so : FetchOutcome SearchResult)
    (co : FetchOutcome (Option String)) :
    (st.isAnalyzing = false → 100 ≤ jsLength (jsTrim st.storyInput) →
      (analysisStartState st).isAnalyzing = true ∧
      (handleAnalysis st ao).1.isAnalyzing = false) ∧
    (st.isSearching = false → 5 ≤ jsLength (jsTrim st.bookTitleInput) →
      (searchStartState st (jsTrim st.bookTitleInput)).isSearching = true ∧
      (findBookSummary st so).1.isSearching = false) ∧
    (st.isChatting = false → st.chatInputDisabled = false →
      jsTrim st.chatInputValue ≠ "" → jsTrim st.storyInput ≠ "" →
      jsTruthyStr st.activeCharacter = true →
      (chatPendingState st).isChatting = true ∧
      (handleChat st co).1.isChatting = false) := by
  refine ⟨?_, ?_, ?_⟩
  · intro hb hlen
    have hlt : ¬ jsLength (jsTrim st.storyInput) < 100 := by omega
    refine ⟨rfl, ?_⟩
    rcases ao with ⟨a, c⟩
    rcases a with msg | v
    · simp [handleAnalysis, hb, hlt, analysisFinally, analysisCatch]
    · rcases hso : structureOk v with _ | _
      · simp [handleAnalysis, hb, hlt, hso, analysisFinally, analysisCatch]
      · rcases c with msg | chars <;>
          simp [handleAnalysis, hb, hlt, hso, analysisFinally, analysisCatch,
            updateUI_isAnalyzing]
  · intro hb hlen
    have hlt : ¬ jsLength (jsTrim st.bookTitleInput) < 5 := by omega
    refine ⟨rfl, ?_⟩
    rcases so with msg | result
    · simp [findBookSummary, hb, hlt, searchFinally]
    · simp only [findBookSummary, hb, hlt]
      simp only [Bool.false_eq_true, if_false, if_neg hlt]
      split_ifs <;> (try split) <;> simp [searchFinally]
  · intro h1 h2 h3 h4 h5
    refine ⟨rfl, ?_⟩
    rcases co with msg | resp
    · simp [handleChat, h1, h2, h3, h4, h5, chatFinally]
    · simp [handleChat, h1, h2, h3, h4, h5, chatFinally]
      split_ifs <;> simp [chatFinally]

theorem C9_witness :
    (((analysisStartState { initialState with storyInput := longStory }).isAnalyzing = true ∧
      (handleAnalysis { initialState with storyInput := longStory } failingOracle).1.isAnalyzing = false) ∧
     ((searchStartState { initialState with bookTitleInput := "Chapter 5 of Dracula" }
        (jsTrim ({ initialState with bookTitleInput := "Chapter 5 of Dracula" } : AppState).bookTitleInput)).isSearching = true ∧
      (findBookSummary { initialState with bookTitleInput := "Chapter 5 of Dracula" }
        (FetchOutcome.err "x")).1.isSearching = false) ∧
     ((chatPendingState readyChatState).isChatting = true ∧
      (handleChat readyChatState (FetchOutcome.ok (some "Hello traveler"))).1.isChatting = false)) :=
  ⟨(C9_busy_flags { initialState with storyInput := longStory } failingOracle
      (FetchOutcome.err "x") (FetchOutcome.err "x")).1 rfl (by decide),
   (C9_busy_flags { initialState with bookTitleInput := "Chapter 5 of Dracula" } failingOracle
      (FetchOutcome.err "x") (FetchOutcome.err "x")).2.1 rfl (by decide),
   (C9_busy_flags readyChatState failingOracle (FetchOutcome.err "x")
      (FetchOutcome.ok (some "Hello traveler"))).2.2 rfl rfl (by decide) (by decide) rfl⟩

/-! Claim C10 -/

/-- C10 counterexample: a successful chat call whose reply carries a
`response` field holding the empty string is treated as a failure by the
code — the transcript keeps only the user turn (1 entry, not the 2 the
claim requires of a successful call whose reply has a response field). -/
theorem C10_counterexample :
    (handleChat readyChatState (FetchOutcome.ok (some ""))).1.chatHistory =
      [{ role := "user", parts := [{ text := "Hello" }] }] ∧
    (handleChat readyChatState (FetchOutcome.ok (some ""))).1.chatHistory.length = 1 ∧
    (handleChat readyChatState (FetchOutcome.ok (some ""))).1.chatStatusMessage =
      "Error: No valid response from the character AI." := by decide

/-- C10 (amended): past the guards, the user turn is appended to the
transcript before the chat call; a thrown error or a missing or empty
response leaves exactly that one new entry, while a non-empty response
appends the model turn after it, and exactly one call to the chat endpoint
is made. -/
theorem C10_transcript_growth (st : AppState) (o : FetchOutcome (Option String))
    (h1 : st.isChatting = false) (h2 : st.chatInputDisabled = false)
    (h3 : jsTrim st.chatInputValue ≠ "") (h4 : jsTrim st.storyInput ≠ "")
    (h5 : jsTruthyStr st.activeCharacter = true) :
    (chatPendingState st).chatHistory =
      st.chatHistory ++ [{ role := "user", parts := [{ text := jsTrim st.chatInputValue }] }] ∧
    (∀ msg, o = FetchOutcome.err msg →
      (handleChat st o).1.chatHistory =
        st.chatHistory ++ [{ role := "user", parts := [{ text := jsTrim st.chatInputValue }] }]) ∧
    (∀ resp, o = FetchOutcome.ok resp → jsTruthyStr resp = false →
      (handleChat st o).1.chatHistory =
        st.chatHistory ++ [{ role := "user", parts := [{ text := jsTrim st.chatInputValue }] }]) ∧
    (∀ r, o = FetchOutcome.ok (some r) → r ≠ "" →
      (handleChat st o).1.chatHistory =
        st.chatHistory ++
          [{ role := "user", parts := [{ text := jsTrim st.chatInputValue }] },
           { role := "model", parts := [{ text := r }] }]) ∧
    (handleChat st o).2 = ["/chat"] := by
  refine ⟨rfl, ?_, ?_, ?_, ?_⟩
  · rintro msg rfl
    simp [handleChat, h1, h2, h3, h4, h5, chatFinally, chatPendingState]
  · rintro resp rfl hresp
    simp [handleChat, h1, h2, h3, h4, h5, hresp, chatFinally, chatPendingState]
  · rintro r rfl hr
    have ht : jsTruthyStr (some r) = true := by simp [jsTruthyStr, hr]
    simp [handleChat, h1, h2, h3, h4, h5, ht, chatFinally, chatPendingState, jsStr]
  · rcases o with msg | resp
    · simp [handleChat, h1, h2, h3, h4, h5]
    · simp [handleChat, h1, h2, h3, h4, h5]
      split_ifs <;> simp

theorem C10_witness :
    ((chatPendingState readyChatState).chatHistory =
      readyChatState.chatHistory ++
        [{ role := "user", parts := [{ text := jsTrim readyChatState.chatInputValue }] }]) ∧
    ((handleChat readyChatState (FetchOutcome.err "down")).1.chatHistory =
      readyChatState.chatHistory ++
        [{ role := "user", parts := [{ text := jsTrim readyChatState.chatInputValue }] }]) ∧
    ((handleChat readyChatState (FetchOutcome.ok (some "Hello traveler"))).1.chatHistory =
      readyChatState.chatHistory ++
        [{ role := "user", parts := [{ text := jsTrim readyChatState.chatInputValue }] },
         { role := "model", parts := [{ text := "Hello traveler" }] }]) ∧
    (handleChat readyChatState (FetchOutcome.ok (some "Hello traveler"))).2 = ["/chat"] :=
  ⟨(C10_transcript_growth readyChatState (FetchOutcome.err "down") rfl rfl (by decide)
      (by decide) rfl).1,
   (C10_transcript_growth readyChatState (FetchOutcome.err "down") rfl rfl (by decide)
      (by decide) rfl).2.1 "down" rfl,
   (C10_transcript_growth readyChatState (FetchOutcome.ok (some "Hello traveler")) rfl rfl
      (by decide) (by decide) rfl).2.2.2.1 "Hello traveler" rfl (by decide),
   (C10_transcript_growth readyChatState (FetchOutcome.ok (some "Hello traveler")) rfl rfl
      (by decide) (by decide) rfl).2.2.2.2⟩

end MoodGenesis
